import Mathlib

/-!
Shallow embedding of the `iswyd` message-archival service.

The data model comes from `src/archived_message.rs`, the event handlers from
`src/archiver/archiver.rs`.  External identifier and payload types from the
serenity library are opaque to the archiver and are modelled as `Nat`;
`chrono::DateTime<Utc>` values are modelled as millisecond epoch integers and
serenity timestamps as nanosecond epoch integers, which is exactly the
precision at which the code manipulates them (`convert_ts`).  The MongoDB
collection is modelled as an insertion-ordered list of documents: `insert_one`
appends unconditionally (the code creates no unique index on the `id` field),
`find_one` returns the first document matching the `id` filter, and
`update_one` with `upsert = true` replaces the first matching document or
appends when none matches.
-/

namespace Iswyd

/-- Platform message identifier (serenity `MessageId`), opaque to the archiver. -/
abbrev MessageId := Nat

/-- Channel identifier (serenity `ChannelId`). -/
abbrev ChannelId := Nat

/-- Guild identifier (serenity `GuildId`). -/
abbrev GuildId := Nat

/-- User identifier (serenity `UserId`). -/
abbrev UserId := Nat

/-- Webhook identifier (serenity `WebhookId`). -/
abbrev WebhookId := Nat

/-- Application identifier (serenity `ApplicationId`). -/
abbrev ApplicationId := Nat

/-- Session identifier (`uuid::Uuid`), opaque. -/
abbrev Uuid := Nat

/-- Opaque serenity payload: `MessageReference`. -/
abbrev MessageReference := Nat

/-- Opaque serenity payload: `MessageInteraction`. -/
abbrev MessageInteraction := Nat

/-- Opaque serenity payload: `Attachment`. -/
abbrev Attachment := Nat

/-- Opaque serenity payload: `Embed`. -/
abbrev Embed := Nat

/-- Opaque serenity payload: `ActionRow`. -/
abbrev ActionRow := Nat

/-- Opaque serenity payload: `StickerItem`. -/
abbrev StickerItem := Nat

/-- The crate's `Timestamp = chrono::DateTime<Utc>`, at the millisecond
precision the code stores (`ts_milliseconds` serialisation), modelled as
milliseconds since the Unix epoch. -/
abbrev Timestamp := Int

/-- A serenity `Timestamp`, modelled by its `unix_timestamp_nanos()` value
(nanoseconds since the Unix epoch, an `i128` in the source). -/
abbrev SerenityTimestamp := Int

/-- Smallest millisecond value representable by `chrono::NaiveDateTime`
(midnight of the first day of year -262144, the start of chrono's proleptic
Gregorian range): `NaiveDateTime::from_timestamp_millis` returns `None` below
it. -/
def chronoMinMillis : Int := -8334632937600000

/-- Largest millisecond value representable by `chrono::NaiveDateTime`
(the last millisecond of year 262143). -/
def chronoMaxMillis : Int := 8210298412799999

/-- Smallest `unix_timestamp_nanos` value of a serenity `Timestamp`, which
wraps a `time::OffsetDateTime` restricted to years -9999..=9999:
nanoseconds of -9999-01-01T00:00:00Z. -/
def timeMinNanos : Int := -377705203200000000000

/-- Largest `unix_timestamp_nanos` value of a serenity `Timestamp`:
nanoseconds of 9999-12-31T23:59:59.999999999Z. -/
def timeMaxNanos : Int := 253402300799999999999

/-- Rust `as i64` cast: wrap the integer into the two's-complement range of
`i64` (the literals are 2^63 and 2^64). -/
def i64_cast (x : Int) : Int :=
  (x + 9223372036854775808) % 18446744073709551616 - 9223372036854775808

/-- Model of `chrono::NaiveDateTime::from_timestamp_millis`: succeeds exactly
on the representable millisecond range, returning the same instant. -/
def from_timestamp_millis (millis : Int) : Option Timestamp :=
  if chronoMinMillis ≤ millis ∧ millis ≤ chronoMaxMillis then some millis else none

/-- The millisecond value computed inside `convert_ts`
(`(ts.unix_timestamp_nanos() / 1_000_000) as i64`; Rust integer division
truncates toward zero, hence `Int.tdiv`). -/
def convert_ts_millis (ts : SerenityTimestamp) : Int := i64_cast (Int.tdiv ts 1000000)

/-- Model of `convert_ts` including its fallible inner call: the source
applies `.expect("already checked")` to `from_timestamp_millis`, so a `none`
here is the panic the code asserts unreachable. -/
def convert_ts_checked (ts : SerenityTimestamp) : Option Timestamp :=
  from_timestamp_millis (convert_ts_millis ts)

/-- Total model of `convert_ts` (`src/archived_message.rs` lines 20-26),
returning the millisecond value directly; `convert_ts_checked` records where
the source would panic instead. -/
def convert_ts (ts : SerenityTimestamp) : Timestamp := convert_ts_millis ts

/-- Serenity `MessageType` restricted to the variants the `From` impl in
`src/archived_message.rs` distinguishes; every other serenity variant behaves
like `Unknown` under the catch-all arm. -/
inductive MessageType where
  | Regular
  | GroupRecipientAddition
  | GroupRecipientRemoval
  | GroupCallCreation
  | GroupNameUpdate
  | PinsAdd
  | MemberJoin
  | NitroBoost
  | NitroTier1
  | NitroTier2
  | NitroTier3
  | ChannelFollowAdd
  | GuildDiscoveryDisqualified
  | GuildDiscoveryRequalified
  | GuildDiscoveryGracePeriodInitialWarning
  | GuildDiscoveryGracePeriodFinalWarning
  | ThreadCreated
  | InlineReply
  | ChatInputCommand
  | ThreadStarterMessage
  | GuildInviteReminder
  | ContextMenuCommand
  | AutoModerationAction
  | Unknown
deriving DecidableEq, Repr

/-- The crate's `ArchivedMessageType` enum (`src/archived_message.rs`
lines 289-316). -/
inductive ArchivedMessageType where
  | Regular
  | GroupRecipientAddition
  | GroupRecipientRemoval
  | GroupCallCreation
  | GroupNameUpdate
  | GroupIconUpdate
  | PinsAdd
  | MemberJoin
  | NitroBoost
  | NitroTier1
  | NitroTier2
  | NitroTier3
  | ChannelFollowAdd
  | GuildDiscoveryDisqualified
  | GuildDiscoveryRequalified
  | GuildDiscoveryGracePeriodInitialWarning
  | GuildDiscoveryGracePeriodFinalWarning
  | ThreadCreated
  | InlineReply
  | ChatInputCommand
  | ThreadStarterMessage
  | GuildInviteReminder
  | ContextMenuCommand
  | AutoModerationAction
  | Unknown
deriving DecidableEq, Repr

/-- The `From<MessageType> for ArchivedMessageType` impl
(`src/archived_message.rs` lines 318-351). -/
def ArchivedMessageType.ofMessageType : MessageType → ArchivedMessageType
  | MessageType.Regular => Regular
  | MessageType.GroupRecipientAddition => GroupRecipientAddition
  | MessageType.GroupRecipientRemoval => GroupRecipientRemoval
  | MessageType.GroupCallCreation => GroupCallCreation
  | MessageType.GroupNameUpdate => GroupNameUpdate
  | MessageType.PinsAdd => PinsAdd
  | MessageType.MemberJoin => MemberJoin
  | MessageType.NitroBoost => NitroBoost
  | MessageType.NitroTier1 => NitroTier1
  | MessageType.NitroTier2 => NitroTier2
  | MessageType.NitroTier3 => NitroTier3
  | MessageType.ChannelFollowAdd => ChannelFollowAdd
  | MessageType.GuildDiscoveryDisqualified => GuildDiscoveryDisqualified
  | MessageType.GuildDiscoveryRequalified => GuildDiscoveryRequalified
  | MessageType.GuildDiscoveryGracePeriodInitialWarning =>
      GuildDiscoveryGracePeriodInitialWarning
  | MessageType.GuildDiscoveryGracePeriodFinalWarning =>
      GuildDiscoveryGracePeriodFinalWarning
  | MessageType.ThreadCreated => ThreadCreated
  | MessageType.InlineReply => InlineReply
  | MessageType.ChatInputCommand => ChatInputCommand
  | MessageType.ThreadStarterMessage => ThreadStarterMessage
  | MessageType.GuildInviteReminder => GuildInviteReminder
  | MessageType.ContextMenuCommand => ContextMenuCommand
  | MessageType.AutoModerationAction => AutoModerationAction
  | MessageType.Unknown => Unknown

/-- One entry of a record's iteration log (`ArchivedMessageIteration`,
`src/archived_message.rs` lines 249-267). -/
structure ArchivedMessageIteration where
  timestamp : Timestamp
  may_contain_gap : Bool
  session_id : Uuid
  content : String
  attachments : List Attachment
  embeds : List Embed
  components : List ActionRow
  sticker_items : List StickerItem
deriving DecidableEq, Repr

/-- A fully observed message (`ArchivedMessageFull`,
`src/archived_message.rs` lines 38-59). -/
structure ArchivedMessageFull where
  id : MessageId
  channel_id : ChannelId
  guild_id : Option GuildId
  author_id : UserId
  timestamp : Timestamp
  kind : ArchivedMessageType
  message_reference : Option MessageReference
  webhook_id : Option WebhookId
  application_id : Option ApplicationId
  interaction : Option MessageInteraction
  iterations : List ArchivedMessageIteration
  marked_as_edited : Bool
deriving DecidableEq, Repr

/-- A fully observed message that was later deleted
(`ArchivedMessageFullDeleted`, `src/archived_message.rs` lines 108-131). -/
structure ArchivedMessageFullDeleted where
  id : MessageId
  channel_id : ChannelId
  guild_id : Option GuildId
  author_id : UserId
  timestamp : Timestamp
  kind : ArchivedMessageType
  message_reference : Option MessageReference
  webhook_id : Option WebhookId
  application_id : Option ApplicationId
  interaction : Option MessageInteraction
  iterations : List ArchivedMessageIteration
  marked_as_edited : Bool
  deleted_timestamp : Option Timestamp
deriving DecidableEq, Repr

/-- A message first observed through an update event
(`ArchivedMessageIncomplete`, `src/archived_message.rs` lines 141-156). -/
structure ArchivedMessageIncomplete where
  id : MessageId
  channel_id : ChannelId
  guild_id : Option GuildId
  author_id : UserId
  timestamp : Timestamp
  iterations : List ArchivedMessageIteration
  marked_as_edited : Bool
deriving DecidableEq, Repr

/-- An incomplete message that was later deleted
(`ArchivedMessageIncompleteDeleted`, `src/archived_message.rs`
lines 211-228). -/
structure ArchivedMessageIncompleteDeleted where
  id : MessageId
  channel_id : ChannelId
  guild_id : Option GuildId
  author_id : UserId
  timestamp : Timestamp
  iterations : List ArchivedMessageIteration
  marked_as_edited : Bool
  deleted_timestamp : Option Timestamp
deriving DecidableEq, Repr

/-- A deletion observed for a message the store never saw
(`ArchivedMessageUnknownDeleted`, `src/archived_message.rs`
lines 241-247). -/
structure ArchivedMessageUnknownDeleted where
  id : MessageId
  channel_id : ChannelId
  guild_id : Option GuildId
  deleted_timestamp : Option Timestamp
deriving DecidableEq, Repr

/-- The five-variant record union (`ArchivedMessage`,
`src/archived_message.rs` lines 28-36). -/
inductive ArchivedMessage where
  | Full (m : ArchivedMessageFull)
  | FullDeleted (m : ArchivedMessageFullDeleted)
  | Incomplete (m : ArchivedMessageIncomplete)
  | IncompleteDeleted (m : ArchivedMessageIncompleteDeleted)
  | UnknownDeleted (m : ArchivedMessageUnknownDeleted)
deriving DecidableEq, Repr

/-- Serenity `User`, restricted to the one field the archiver reads. -/
structure User where
  id : UserId
deriving DecidableEq, Repr

/-- A serenity gateway `Message` (create event payload), restricted to the
fields `ArchivedMessageFull::from_gateway` reads. -/
structure Message where
  id : MessageId
  channel_id : ChannelId
  guild_id : Option GuildId
  author : User
  timestamp : SerenityTimestamp
  kind : MessageType
  message_reference : Option MessageReference
  webhook_id : Option WebhookId
  application_id : Option ApplicationId
  interaction : Option MessageInteraction
  content : String
  attachments : List Attachment
  embeds : List Embed
  components : List ActionRow
  sticker_items : List StickerItem
deriving DecidableEq, Repr

/-- A serenity `MessageUpdateEvent` (edit event payload), restricted to the
fields the archiver reads; every content facet is optional in the partial
payload. -/
structure MessageUpdateEvent where
  id : MessageId
  channel_id : ChannelId
  guild_id : Option GuildId
  author : Option User
  timestamp : Option SerenityTimestamp
  edited_timestamp : Option SerenityTimestamp
  content : Option String
  attachments : Option (List Attachment)
  embeds : Option (List Embed)
  components : Option (List ActionRow)
  sticker_items : Option (List StickerItem)
deriving DecidableEq, Repr

/-- Translation failure for `ArchivedMessageIncomplete::from_gateway`
(`ArchivedMessageIncompleteFromSerenityError`, `src/archived_message.rs`
lines 158-165). -/
inductive ArchivedMessageIncompleteFromSerenityError where
  | NoAuthor
  | NoTimestamp
deriving DecidableEq, Repr

/-- `ArchivedMessageFull::from_gateway` (`src/archived_message.rs`
lines 62-87). -/
def ArchivedMessageFull.from_gateway (message : Message) (session_id : Uuid) :
    ArchivedMessageFull :=
  { id := message.id
    channel_id := message.channel_id
    guild_id := message.guild_id
    author_id := message.author.id
    timestamp := convert_ts message.timestamp
    kind := ArchivedMessageType.ofMessageType message.kind
    message_reference := message.message_reference
    webhook_id := message.webhook_id
    application_id := message.application_id
    interaction := message.interaction
    iterations := [{ timestamp := convert_ts message.timestamp
                     may_contain_gap := false
                     session_id := session_id
                     content := message.content
                     attachments := message.attachments
                     embeds := message.embeds
                     components := message.components
                     sticker_items := message.sticker_items }]
    marked_as_edited := false }

/-- `ArchivedMessageFull::into_deleted` (`src/archived_message.rs`
lines 89-105). -/
def ArchivedMessageFull.into_deleted (self : ArchivedMessageFull)
    (timestamp : Option Timestamp) : ArchivedMessageFullDeleted :=
  { id := self.id
    channel_id := self.channel_id
    guild_id := self.guild_id
    author_id := self.author_id
    timestamp := self.timestamp
    kind := self.kind
    message_reference := self.message_reference
    webhook_id := self.webhook_id
    application_id := self.application_id
    interaction := self.interaction
    iterations := self.iterations
    marked_as_edited := self.marked_as_edited
    deleted_timestamp := timestamp }

/-- `ArchivedMessageIteration::from_gateway` (`src/archived_message.rs`
lines 269-287): absent facets of the partial payload default to empty. -/
def ArchivedMessageIteration.from_gateway (update : MessageUpdateEvent)
    (timestamp : Timestamp) (session_id : Uuid) : ArchivedMessageIteration :=
  { timestamp := timestamp
    may_contain_gap := false
    session_id := session_id
    content := update.content.getD ""
    attachments := update.attachments.getD []
    embeds := update.embeds.getD []
    components := update.components.getD []
    sticker_items := update.sticker_items.getD [] }

/-- `ArchivedMessageIncomplete::from_gateway` (`src/archived_message.rs`
lines 167-193): the author field is demanded before the timestamp field, in
the source's evaluation order. -/
def ArchivedMessageIncomplete.from_gateway (update : MessageUpdateEvent)
    (timestamp : Timestamp) (session_id : Uuid) :
    Except ArchivedMessageIncompleteFromSerenityError ArchivedMessageIncomplete :=
  match update.author with
  | none => Except.error ArchivedMessageIncompleteFromSerenityError.NoAuthor
  | some author =>
    match update.timestamp with
    | none => Except.error ArchivedMessageIncompleteFromSerenityError.NoTimestamp
    | some ts =>
      Except.ok
        { id := update.id
          channel_id := update.channel_id
          guild_id := update.guild_id
          author_id := author.id
          timestamp := convert_ts ts
          iterations := [ArchivedMessageIteration.from_gateway update timestamp session_id]
          marked_as_edited := update.edited_timestamp.isSome }

/-- `ArchivedMessageIncomplete::into_deleted` (`src/archived_message.rs`
lines 195-208). -/
def ArchivedMessageIncomplete.into_deleted (self : ArchivedMessageIncomplete)
    (timestamp : Option Timestamp) : ArchivedMessageIncompleteDeleted :=
  { id := self.id
    channel_id := self.channel_id
    guild_id := self.guild_id
    author_id := self.author_id
    timestamp := self.timestamp
    iterations := self.iterations
    marked_as_edited := self.marked_as_edited
    deleted_timestamp := timestamp }

/-- Message id stored in a document's `id` field, the field all of the
archiver's MongoDB filters select on. -/
def ArchivedMessage.recordId : ArchivedMessage → MessageId
  | ArchivedMessage.Full m => m.id
  | ArchivedMessage.FullDeleted m => m.id
  | ArchivedMessage.Incomplete m => m.id
  | ArchivedMessage.IncompleteDeleted m => m.id
  | ArchivedMessage.UnknownDeleted m => m.id

/-- Iteration log of a record; `UnknownDeleted` carries none. -/
def ArchivedMessage.iterationsList : ArchivedMessage → List ArchivedMessageIteration
  | ArchivedMessage.Full m => m.iterations
  | ArchivedMessage.FullDeleted m => m.iterations
  | ArchivedMessage.Incomplete m => m.iterations
  | ArchivedMessage.IncompleteDeleted m => m.iterations
  | ArchivedMessage.UnknownDeleted _ => []

/-- Edit flag of a record; `UnknownDeleted` carries none. -/
def ArchivedMessage.markedAsEditedFlag : ArchivedMessage → Option Bool
  | ArchivedMessage.Full m => some m.marked_as_edited
  | ArchivedMessage.FullDeleted m => some m.marked_as_edited
  | ArchivedMessage.Incomplete m => some m.marked_as_edited
  | ArchivedMessage.IncompleteDeleted m => some m.marked_as_edited
  | ArchivedMessage.UnknownDeleted _ => none

/-- Lifecycle stage tags of the five record variants. -/
inductive RecordVariant where
  | full
  | fullDeleted
  | incomplete
  | incompleteDeleted
  | unknownDeleted
deriving DecidableEq, Repr

/-- Variant tag of a record. -/
def ArchivedMessage.variant : ArchivedMessage → RecordVariant
  | ArchivedMessage.Full _ => RecordVariant.full
  | ArchivedMessage.FullDeleted _ => RecordVariant.fullDeleted
  | ArchivedMessage.Incomplete _ => RecordVariant.incomplete
  | ArchivedMessage.IncompleteDeleted _ => RecordVariant.incompleteDeleted
  | ArchivedMessage.UnknownDeleted _ => RecordVariant.unknownDeleted

/-- Whether a record is in one of the three deleted variants. -/
def ArchivedMessage.isDeletedVariant : ArchivedMessage → Bool
  | ArchivedMessage.Full _ => false
  | ArchivedMessage.FullDeleted _ => true
  | ArchivedMessage.Incomplete _ => false
  | ArchivedMessage.IncompleteDeleted _ => true
  | ArchivedMessage.UnknownDeleted _ => true

/-- The MongoDB `messages` collection, as the insertion-ordered list of its
documents. -/
abbrev Store := List ArchivedMessage

/-- Model of `find_one` with the filter `{ id: <id> }`: the first document
whose `id` field matches. -/
def find_one (store : Store) (id : MessageId) : Option ArchivedMessage :=
  store.find? (fun d => d.recordId == id)

/-- Model of `insert_one`: MongoDB appends the document unconditionally (the
code creates no unique index on the `id` field, so duplicates are
possible). -/
def insert_one (store : Store) (doc : ArchivedMessage) : Store := store ++ [doc]

/-- Model of `update_one` with filter `{ id: <id> }`, a whole-document `$set`
and `upsert = true`: replace the first matching document, or append the new
document when none matches. -/
def update_one_upsert (store : Store) (id : MessageId) (doc : ArchivedMessage) : Store :=
  match store with
  | [] => [doc]
  | d :: rest =>
    if d.recordId == id then doc :: rest else d :: update_one_upsert rest id doc

/-- Number of stored documents whose `id` field matches. -/
def countId (store : Store) (id : MessageId) : Nat :=
  (store.filter (fun d => d.recordId == id)).length

/-- The `Archiver` handler state (`src/archiver/archiver.rs` lines 20-25),
minus the MongoDB client handle, which the model replaces by explicit `Store`
arguments. -/
structure Archiver where
  ignored_guilds : List GuildId
  ignored_channels : List ChannelId
  session_id : Uuid
deriving DecidableEq, Repr

/-- `Archiver::is_event_ignored` (`src/archiver/archiver.rs`
lines 219-226). -/
def Archiver.is_event_ignored (a : Archiver) (channel_id : ChannelId)
    (guild_id : Option GuildId) : Bool :=
  match guild_id with
  | some gid => a.ignored_channels.contains channel_id || a.ignored_guilds.contains gid
  | none => a.ignored_channels.contains channel_id

/-- The `message` handler for create events (`src/archiver/archiver.rs`
lines 35-53), as a transformer on the store; an insert failure would leave
the store unchanged, which the reported-and-dropped policy already covers. -/
def Archiver.message (a : Archiver) (store : Store) (msg : Message) : Store :=
  if a.is_event_ignored msg.channel_id msg.guild_id then store
  else
    insert_one store
      (ArchivedMessage.Full (ArchivedMessageFull.from_gateway msg a.session_id))

/-- The observation timestamp `message_update` computes before merging
(`src/archiver/archiver.rs` lines 60-63): the event's own edited timestamp if
present, else the wall clock at receipt. -/
def observed_timestamp (update : MessageUpdateEvent) (now : Timestamp) : Timestamp :=
  match update.edited_timestamp with
  | some ts => convert_ts ts
  | none => now

/-- The `message_update` handler for edit events (`src/archiver/archiver.rs`
lines 55-136).  `now` is the wall clock value `Utc::now()` would return at the
receipt of the event. -/
def Archiver.message_update (a : Archiver) (store : Store)
    (update : MessageUpdateEvent) (now : Timestamp) : Store :=
  if a.is_event_ignored update.channel_id update.guild_id then store
  else
    let timestamp : Timestamp := observed_timestamp update now
    let marked_as_edited := update.edited_timestamp.isSome
    match find_one store update.id with
    | some (ArchivedMessage.Full db_message) =>
      update_one_upsert store update.id
        (ArchivedMessage.Full
          { db_message with
              iterations := db_message.iterations ++
                [ArchivedMessageIteration.from_gateway update timestamp a.session_id]
              marked_as_edited := marked_as_edited })
    | some (ArchivedMessage.Incomplete db_message) =>
      update_one_upsert store update.id
        (ArchivedMessage.Incomplete
          { db_message with
              iterations := db_message.iterations ++
                [ArchivedMessageIteration.from_gateway update timestamp a.session_id]
              marked_as_edited := marked_as_edited })
    | some _ => store
    | none =>
      match ArchivedMessageIncomplete.from_gateway update timestamp a.session_id with
      | Except.ok m => update_one_upsert store update.id (ArchivedMessage.Incomplete m)
      | Except.error _ => store

/-- The `message_delete` handler (`src/archiver/archiver.rs` lines 138-205).
`now` is the wall clock value `Utc::now()` returns at receipt. -/
def Archiver.message_delete (a : Archiver) (store : Store)
    (channel_id : ChannelId) (id : MessageId) (guild_id : Option GuildId)
    (now : Timestamp) : Store :=
  if a.is_event_ignored channel_id guild_id then store
  else
    match find_one store id with
    | some (ArchivedMessage.Full db_message) =>
      update_one_upsert store id
        (ArchivedMessage.FullDeleted (db_message.into_deleted (some now)))
    | some (ArchivedMessage.Incomplete db_message) =>
      update_one_upsert store id
        (ArchivedMessage.IncompleteDeleted (db_message.into_deleted (some now)))
    | some _ => store
    | none =>
      update_one_upsert store id
        (ArchivedMessage.UnknownDeleted
          { id := id
            channel_id := channel_id
            guild_id := guild_id
            deleted_timestamp := some now })

/-- The `message_delete_bulk` handler (`src/archiver/archiver.rs`
lines 207-215): a logging no-op. -/
def Archiver.message_delete_bulk (_a : Archiver) (store : Store)
    (_channel_id : ChannelId) (_message_ids : List MessageId)
    (_guild_id : Option GuildId) : Store :=
  store

/-- Stores reachable from the empty collection by handler invocations of one
archiver instance. -/
inductive Reachable (a : Archiver) : Store → Prop where
  | empty : Reachable a []
  | create (s : Store) (msg : Message) :
      Reachable a s → Reachable a (a.message s msg)
  | update (s : Store) (u : MessageUpdateEvent) (now : Timestamp) :
      Reachable a s → Reachable a (a.message_update s u now)
  | delete (s : Store) (ch : ChannelId) (id : MessageId) (g : Option GuildId)
      (now : Timestamp) :
      Reachable a s → Reachable a (a.message_delete s ch id g now)
  | bulk (s : Store) (ch : ChannelId) (ids : List MessageId) (g : Option GuildId) :
      Reachable a s → Reachable a (a.message_delete_bulk s ch ids g)

/-- A document returned by `find_one` matches the filter: its `id` field is
the filtered id. -/
theorem find_one_eq_some_recordId {store : Store} {id : MessageId}
    {r : ArchivedMessage} (h : find_one store id = some r) : r.recordId = id := by
  unfold find_one at h
  have h2 := List.find?_some h
  simpa using h2

/-- A document returned by `find_one` is one of the stored documents. -/
theorem find_one_mem {store : Store} {id : MessageId} {r : ArchivedMessage}
    (h : find_one store id = some r) : r ∈ store := by
  unfold find_one at h
  exact List.mem_of_find?_eq_some h

/-- After an upsert whose document matches the filtered id, `find_one` on that
id returns the upserted document. -/
theorem find_one_update_one_upsert_self (store : Store) (id : MessageId)
    (doc : ArchivedMessage) (h : doc.recordId = id) :
    find_one (update_one_upsert store id doc) id = some doc := by
  induction store with
  | nil =>
    simp [update_one_upsert, find_one, h]
  | cons d rest ih =>
    by_cases hd : d.recordId = id
    · simp [update_one_upsert, find_one, hd, h]
    · have hdb : (d.recordId == id) = false := beq_eq_false_iff_ne.mpr hd
      simp only [update_one_upsert, hdb, Bool.false_eq_true, if_false]
      simp only [find_one, List.find?_cons, hdb]
      exact ih

/-- An upsert whose document matches the filtered id leaves `find_one` on
every other id unchanged. -/
theorem find_one_update_one_upsert_ne (store : Store) (id : MessageId)
    (doc : ArchivedMessage) (i : MessageId) (h : doc.recordId = id)
    (hne : i ≠ id) : find_one (update_one_upsert store id doc) i = find_one store i := by
  have hdoc : (doc.recordId == i) = false :=
    beq_eq_false_iff_ne.mpr (h ▸ Ne.symm hne)
  induction store with
  | nil =>
    simp [update_one_upsert, find_one, hdoc]
  | cons d rest ih =>
    by_cases hd : d.recordId = id
    · have hdb : (d.recordId == id) = true := beq_iff_eq.mpr hd
      have hdi : (d.recordId == i) = false :=
        beq_eq_false_iff_ne.mpr (hd ▸ Ne.symm hne)
      simp only [update_one_upsert, hdb, if_true]
      simp only [find_one, List.find?_cons, hdi, hdoc]
    · have hdb : (d.recordId == id) = false := beq_eq_false_iff_ne.mpr hd
      simp only [update_one_upsert, hdb, Bool.false_eq_true, if_false]
      simp only [find_one, List.find?_cons] at ih ⊢
      cases hdi : (d.recordId == i) with
      | true => rfl
      | false => exact ih

/-- When some document already matches the filtered id, an upsert with a
matching document keeps the number of matching documents unchanged. -/
theorem countId_update_one_upsert_of_found (store : Store) (id : MessageId)
    (doc : ArchivedMessage) (h : doc.recordId = id)
    (hfound : (find_one store id).isSome = true) :
    countId (update_one_upsert store id doc) id = countId store id := by
  induction store with
  | nil =>
    simp [find_one] at hfound
  | cons d rest ih =>
    by_cases hd : d.recordId = id
    · simp [update_one_upsert, countId, h, hd]
    · have hdb : (d.recordId == id) = false := beq_eq_false_iff_ne.mpr hd
      have hfound' : (find_one rest id).isSome = true := by
        simp only [find_one, List.find?_cons, hdb] at hfound
        exact hfound
      have hrec := ih hfound'
      simp only [update_one_upsert, hdb, Bool.false_eq_true, if_false]
      simp only [countId, List.filter_cons, hdb, Bool.false_eq_true, if_false] at hrec ⊢
      exact hrec

/-- An upsert whose document matches the filtered id does not change the
number of documents matching any other id. -/
theorem countId_update_one_upsert_ne (store : Store) (id : MessageId)
    (doc : ArchivedMessage) (i : MessageId) (h : doc.recordId = id)
    (hne : i ≠ id) : countId (update_one_upsert store id doc) i = countId store i := by
  have hdoc : (doc.recordId == i) = false :=
    beq_eq_false_iff_ne.mpr (h ▸ Ne.symm hne)
  induction store with
  | nil =>
    simp [update_one_upsert, countId, hdoc]
  | cons d rest ih =>
    by_cases hd : d.recordId = id
    · have hdb : (d.recordId == id) = true := beq_iff_eq.mpr hd
      have hdi : (d.recordId == i) = false :=
        beq_eq_false_iff_ne.mpr (hd ▸ Ne.symm hne)
      simp only [update_one_upsert, hdb, if_true]
      simp only [countId, List.filter_cons, hdi, hdoc, Bool.false_eq_true, if_false]
    · have hdb : (d.recordId == id) = false := beq_eq_false_iff_ne.mpr hd
      simp only [update_one_upsert, hdb, Bool.false_eq_true, if_false]
      simp only [countId, List.filter_cons] at ih ⊢
      cases hdi : (d.recordId == i) with
      | true => simp [ih]
      | false => simp [ih]

/-- Every document present after an upsert was already stored or is the
upserted document. -/
theorem mem_update_one_upsert {d : ArchivedMessage} {store : Store}
    {id : MessageId} {doc : ArchivedMessage}
    (h : d ∈ update_one_upsert store id doc) : d ∈ store ∨ d = doc := by
  induction store with
  | nil =>
    simp [update_one_upsert] at h
    right
    exact h
  | cons e rest ih =>
    simp only [update_one_upsert] at h
    by_cases he : (e.recordId == id) = true
    · rw [if_pos he] at h
      rcases List.mem_cons.mp h with h1 | h1
      · right
        exact h1
      · left
        exact List.mem_cons_of_mem _ h1
    · rw [if_neg he] at h
      rcases List.mem_cons.mp h with h1 | h1
      · left
        rw [h1]
        exact List.mem_cons_self _ _
      · rcases ih h1 with h2 | h2
        · left
          exact List.mem_cons_of_mem _ h2
        · right
          exact h2

/-- Allowed per-id lifecycle transitions of one handler invocation, on the
`find_one` result before and after: stay put, appear as `Incomplete` or
`UnknownDeleted`, or be promoted `Full → FullDeleted` or
`Incomplete → IncompleteDeleted`. -/
def variantStepOk : Option RecordVariant → Option RecordVariant → Bool
  | none, none => true
  | none, some RecordVariant.incomplete => true
  | none, some RecordVariant.unknownDeleted => true
  | none, some _ => false
  | some _, none => false
  | some v, some w =>
    v == w || (v == RecordVariant.full && w == RecordVariant.fullDeleted) ||
      (v == RecordVariant.incomplete && w == RecordVariant.incompleteDeleted)

/-- Any per-id state is an allowed transition target of itself. -/
theorem variantStepOk_refl (o : Option RecordVariant) : variantStepOk o o = true := by
  cases o with
  | none => rfl
  | some v => cases v <;> rfl

/-- A store none of whose records carries a gap-flagged iteration. -/
def GapFree (s : Store) : Prop :=
  ∀ r ∈ s, ∀ it ∈ r.iterationsList, it.may_contain_gap = false

/-- Fixture archiver: nothing ignored, session id 7. -/
def arch0 : Archiver :=
  { ignored_guilds := []
    ignored_channels := []
    session_id := 7 }

/-- Fixture create event: message 1 in channel 10 / guild 20 by author 30,
platform timestamp 5000 ms (5000000000 ns), content "hi". -/
def msg1 : Message :=
  { id := 1
    channel_id := 10
    guild_id := some 20
    author := { id := 30 }
    timestamp := 5000000000
    kind := MessageType.Regular
    message_reference := none
    webhook_id := none
    application_id := none
    interaction := none
    content := "hi"
    attachments := []
    embeds := []
    components := []
    sticker_items := [] }

/-- Fixture edit event for message 1 carrying author and timestamp but no
edited timestamp (as a platform embed-unfurl update would). -/
def upd1 : MessageUpdateEvent :=
  { id := 1
    channel_id := 10
    guild_id := some 20
    author := some { id := 30 }
    timestamp := some 5000000000
    edited_timestamp := none
    content := some "hi!"
    attachments := none
    embeds := none
    components := none
    sticker_items := none }

/-- Fixture edit event for message 1 carrying an edited timestamp of 6000 ms. -/
def upd2 : MessageUpdateEvent :=
  { id := 1
    channel_id := 10
    guild_id := some 20
    author := some { id := 30 }
    timestamp := some 5000000000
    edited_timestamp := some 6000000000
    content := some "hi!!"
    attachments := none
    embeds := none
    components := none
    sticker_items := none }

/-- Fixture edit event lacking both author and timestamp. -/
def updNoAuthorNoTimestamp : MessageUpdateEvent :=
  { id := 2
    channel_id := 10
    guild_id := some 20
    author := none
    timestamp := none
    edited_timestamp := some 6000000000
    content := some "x"
    attachments := none
    embeds := none
    components := none
    sticker_items := none }

/-- The Incomplete record that `upd1` translates to at observation time 5000
with session 7, written out field by field. -/
def inc1 : ArchivedMessageIncomplete :=
  { id := 1
    channel_id := 10
    guild_id := some 20
    author_id := 30
    timestamp := 5000
    iterations := [{ timestamp := 5000
                     may_contain_gap := false
                     session_id := 7
                     content := "hi!"
                     attachments := []
                     embeds := []
                     components := []
                     sticker_items := [] }]
    marked_as_edited := false }

/-- C1 counterexample: the edit event `upd1` carries no edited timestamp; with
no prior record, both the translator and the full `message_update` handler
produce an Incomplete record with `marked_as_edited = false`, refuting the
claim that the flag is set `true` unconditionally on this path. -/
theorem C1_counterexample :
    upd1.edited_timestamp = none ∧
    (ArchivedMessageIncomplete.from_gateway upd1 5000 7).toOption.map
      (fun m => m.marked_as_edited) = some false ∧
    (find_one (arch0.message_update [] upd1 5000) 1).bind
      ArchivedMessage.markedAsEditedFlag = some false :=
  ⟨rfl, rfl, rfl⟩

/-- C1 (amended): for every edit event with no prior record whose translation
succeeds, the Incomplete record the translator builds has `marked_as_edited`
equal to whether the edit payload itself carries an edited timestamp — not
`true` unconditionally. -/
theorem C1_incomplete_edit_flag (u : MessageUpdateEvent) (ts : Timestamp)
    (sid : Uuid) (m : ArchivedMessageIncomplete)
    (h : ArchivedMessageIncomplete.from_gateway u ts sid = Except.ok m) :
    m.marked_as_edited = u.edited_timestamp.isSome := by
  unfold ArchivedMessageIncomplete.from_gateway at h
  cases ha : u.author with
  | none =>
    rw [ha] at h
    exact absurd h (by simp)
  | some author =>
    rw [ha] at h
    cases ht : u.timestamp with
    | none =>
      rw [ht] at h
      exact absurd h (by simp)
    | some ts2 =>
      rw [ht] at h
      injection h with h2
      rw [← h2]

/-- Witness for C1: the amended flag law instantiated on `upd1`. -/
theorem C1_incomplete_edit_flag_witness :
    inc1.marked_as_edited = upd1.edited_timestamp.isSome :=
  C1_incomplete_edit_flag upd1 5000 7 inc1 (by rfl)

/-- C3 counterexample: in the scenario where create event `msg1` (platform
timestamp 5000 ms) is received at wall-clock time 9999 ms, the founding
iteration is stamped 5000 — the message's own platform timestamp — and not
the receipt time 9999; the create handler never reads the clock at all. -/
theorem C3_counterexample :
    (ArchivedMessageFull.from_gateway msg1 7).iterations.map
      (fun it => it.timestamp) = [5000] ∧ (5000 : Int) ≠ 9999 :=
  ⟨rfl, by decide⟩

/-- C3 (amended): for every Create event that is not ignored, the handler
inserts a Full record with exactly one iteration whose content equals the
event's content, whose timestamp is the message's own platform creation
timestamp (millisecond-truncated by `convert_ts`) rather than the receipt
time, and whose `marked_as_edited` is `false`. -/
theorem C3_create_full (a : Archiver) (store : Store) (msg : Message)
    (h : a.is_event_ignored msg.channel_id msg.guild_id = false) :
    a.message store msg =
      insert_one store
        (ArchivedMessage.Full (ArchivedMessageFull.from_gateway msg a.session_id)) ∧
    (ArchivedMessageFull.from_gateway msg a.session_id).iterations =
      [{ timestamp := convert_ts msg.timestamp
         may_contain_gap := false
         session_id := a.session_id
         content := msg.content
         attachments := msg.attachments
         embeds := msg.embeds
         components := msg.components
         sticker_items := msg.sticker_items }] ∧
    (ArchivedMessageFull.from_gateway msg a.session_id).marked_as_edited = false := by
  refine ⟨?_, rfl, rfl⟩
  simp [Archiver.message, h]

/-- Witness for C3: the amended create law instantiated on `msg1` and the
empty store. -/
theorem C3_create_full_witness :
    arch0.message [] msg1 =
      insert_one []
        (ArchivedMessage.Full (ArchivedMessageFull.from_gateway msg1 arch0.session_id)) ∧
    (ArchivedMessageFull.from_gateway msg1 arch0.session_id).iterations =
      [{ timestamp := convert_ts msg1.timestamp
         may_contain_gap := false
         session_id := arch0.session_id
         content := msg1.content
         attachments := msg1.attachments
         embeds := msg1.embeds
         components := msg1.components
         sticker_items := msg1.sticker_items }] ∧
    (ArchivedMessageFull.from_gateway msg1 arch0.session_id).marked_as_edited = false :=
  C3_create_full arch0 [] msg1 (by rfl)

/-- C6 counterexample: an edit payload lacking both author and timestamp
fails with `NoAuthor`, not `NoTimestamp`, although it lacks a timestamp — the
author check runs first, so "fails with MissingTimestamp exactly when it lacks
a timestamp" is false as a biconditional. -/
theorem C6_counterexample :
    updNoAuthorNoTimestamp.timestamp = none ∧
    ArchivedMessageIncomplete.from_gateway updNoAuthorNoTimestamp 5000 7 =
      Except.error ArchivedMessageIncompleteFromSerenityError.NoAuthor ∧
    ArchivedMessageIncomplete.from_gateway updNoAuthorNoTimestamp 5000 7 ≠
      Except.error ArchivedMessageIncompleteFromSerenityError.NoTimestamp := by
  refine ⟨rfl, rfl, ?_⟩
  intro hcontra
  rw [show ArchivedMessageIncomplete.from_gateway updNoAuthorNoTimestamp 5000 7 =
      Except.error ArchivedMessageIncompleteFromSerenityError.NoAuthor from rfl] at hcontra
  injection hcontra with h2
  exact ArchivedMessageIncompleteFromSerenityError.noConfusion h2

/-- C6 (amended): for every Edit event with no prior record, building the
Incomplete record fails with `NoAuthor` exactly when the payload lacks author
information, and with `NoTimestamp` exactly when it carries an author but
lacks a timestamp (a payload missing both fails with `NoAuthor`); in either
failure case no record is produced and the handler persists nothing. -/
theorem C6_translation_failure (a : Archiver) (store : Store)
    (u : MessageUpdateEvent) (ts now : Timestamp) (sid : Uuid)
    (hnone : find_one store u.id = none) :
    ((ArchivedMessageIncomplete.from_gateway u ts sid =
        Except.error ArchivedMessageIncompleteFromSerenityError.NoAuthor) ↔
      u.author = none) ∧
    ((ArchivedMessageIncomplete.from_gateway u ts sid =
        Except.error ArchivedMessageIncompleteFromSerenityError.NoTimestamp) ↔
      (u.author.isSome = true ∧ u.timestamp = none)) ∧
    ((u.author = none ∨ u.timestamp = none) → a.message_update store u now = store) := by
  by_cases hig : a.is_event_ignored u.channel_id u.guild_id = true
  · cases ha : u.author with
    | none =>
      refine ⟨by simp [ArchivedMessageIncomplete.from_gateway, ha], ?_, ?_⟩
      · simp [ArchivedMessageIncomplete.from_gateway, ha]
      · intro _
        simp [Archiver.message_update, hig]
    | some author =>
      cases ht : u.timestamp with
      | none =>
        refine ⟨by simp [ArchivedMessageIncomplete.from_gateway, ha, ht], ?_, ?_⟩
        · simp [ArchivedMessageIncomplete.from_gateway, ha, ht]
        · intro _
          simp [Archiver.message_update, hig]
      | some ts2 =>
        refine ⟨by simp [ArchivedMessageIncomplete.from_gateway, ha, ht], ?_, ?_⟩
        · simp [ArchivedMessageIncomplete.from_gateway, ha, ht]
        · intro hcase
          simp [Archiver.message_update, hig]
  · rw [Bool.not_eq_true] at hig
    cases ha : u.author with
    | none =>
      refine ⟨by simp [ArchivedMessageIncomplete.from_gateway, ha], ?_, ?_⟩
      · simp [ArchivedMessageIncomplete.from_gateway, ha]
      · intro _
        simp [Archiver.message_update, hig, hnone, ArchivedMessageIncomplete.from_gateway, ha]
    | some author =>
      cases ht : u.timestamp with
      | none =>
        refine ⟨by simp [ArchivedMessageIncomplete.from_gateway, ha, ht], ?_, ?_⟩
        · simp [ArchivedMessageIncomplete.from_gateway, ha, ht]
        · intro _
          simp [Archiver.message_update, hig, hnone, ArchivedMessageIncomplete.from_gateway,
            ha, ht]
      | some ts2 =>
        refine ⟨by simp [ArchivedMessageIncomplete.from_gateway, ha, ht], ?_, ?_⟩
        · simp [ArchivedMessageIncomplete.from_gateway, ha, ht]
        · intro hcase
          rcases hcase with hcase | hcase
          · exact absurd hcase (by simp)
          · exact absurd hcase (by simp)

/-- Witness for C6: the amended failure law instantiated on the payload
missing both author and timestamp, against the empty store. -/
theorem C6_translation_failure_witness :
    ((ArchivedMessageIncomplete.from_gateway updNoAuthorNoTimestamp 5000 7 =
        Except.error ArchivedMessageIncompleteFromSerenityError.NoAuthor) ↔
      updNoAuthorNoTimestamp.author = none) ∧
    ((ArchivedMessageIncomplete.from_gateway updNoAuthorNoTimestamp 5000 7 =
        Except.error ArchivedMessageIncompleteFromSerenityError.NoTimestamp) ↔
      (updNoAuthorNoTimestamp.author.isSome = true ∧
        updNoAuthorNoTimestamp.timestamp = none)) ∧
    ((updNoAuthorNoTimestamp.author = none ∨ updNoAuthorNoTimestamp.timestamp = none) →
      arch0.message_update [] updNoAuthorNoTimestamp 5000 = []) :=
  C6_translation_failure arch0 [] updNoAuthorNoTimestamp 5000 5000 7 (by rfl)

/-- Fixture Full record: the archive of `msg1` as the create handler builds
it. -/
def full1 : ArchivedMessageFull := ArchivedMessageFull.from_gateway msg1 7

/-- C2: for every Edit event, not ignored, applied to an existing Full or
Incomplete record, the stored record afterwards is the prior record whose
iteration log has exactly the one new entry appended at the end; every prior
iteration is preserved unchanged in its original position, with no reordering
or deduplication (the new entry is appended even if it equals or shares a
timestamp with an existing one). -/
theorem C2_edit_append (a : Archiver) (store : Store) (u : MessageUpdateEvent)
    (now : Timestamp) (dbF : ArchivedMessageFull) (dbI : ArchivedMessageIncomplete)
    (hig : a.is_event_ignored u.channel_id u.guild_id = false) :
    (find_one store u.id = some (ArchivedMessage.Full dbF) →
      find_one (a.message_update store u now) u.id =
        some (ArchivedMessage.Full
          { dbF with
              iterations := dbF.iterations ++
                [ArchivedMessageIteration.from_gateway u (observed_timestamp u now)
                  a.session_id]
              marked_as_edited := u.edited_timestamp.isSome }) ∧
      (dbF.iterations ++
          [ArchivedMessageIteration.from_gateway u (observed_timestamp u now)
            a.session_id]).length = dbF.iterations.length + 1) ∧
    (find_one store u.id = some (ArchivedMessage.Incomplete dbI) →
      find_one (a.message_update store u now) u.id =
        some (ArchivedMessage.Incomplete
          { dbI with
              iterations := dbI.iterations ++
                [ArchivedMessageIteration.from_gateway u (observed_timestamp u now)
                  a.session_id]
              marked_as_edited := u.edited_timestamp.isSome }) ∧
      (dbI.iterations ++
          [ArchivedMessageIteration.from_gateway u (observed_timestamp u now)
            a.session_id]).length = dbI.iterations.length + 1) := by
  constructor
  · intro hfind
    have hid : dbF.id = u.id := by
      have := find_one_eq_some_recordId hfind
      simpa [ArchivedMessage.recordId] using this
    refine ⟨?_, by simp⟩
    simp only [Archiver.message_update, hig, Bool.false_eq_true, if_false, hfind]
    exact find_one_update_one_upsert_self store u.id _ (by simpa [ArchivedMessage.recordId])
  · intro hfind
    have hid : dbI.id = u.id := by
      have := find_one_eq_some_recordId hfind
      simpa [ArchivedMessage.recordId] using this
    refine ⟨?_, by simp⟩
    simp only [Archiver.message_update, hig, Bool.false_eq_true, if_false, hfind]
    exact find_one_update_one_upsert_self store u.id _ (by simpa [ArchivedMessage.recordId])

/-- Witness for C2: editing the stored archive of `msg1` with `upd2` appends
exactly the one new iteration after the founding one. -/
theorem C2_edit_append_witness :
    find_one (arch0.message_update [ArchivedMessage.Full full1] upd2 9000) upd2.id =
      some (ArchivedMessage.Full
        { full1 with
            iterations := full1.iterations ++
              [ArchivedMessageIteration.from_gateway upd2 (observed_timestamp upd2 9000)
                arch0.session_id]
            marked_as_edited := upd2.edited_timestamp.isSome }) ∧
    (full1.iterations ++
        [ArchivedMessageIteration.from_gateway upd2 (observed_timestamp upd2 9000)
          arch0.session_id]).length = full1.iterations.length + 1 :=
  (C2_edit_append arch0 [ArchivedMessage.Full full1] upd2 9000 full1 inc1 rfl).1 rfl

/-- C4: for every Delete event, not ignored, an existing Full (resp.
Incomplete) record becomes FullDeleted (resp. IncompleteDeleted) with every
static field and the entire iteration log equal to the prior record's and the
deletion timestamp set to the receipt time (non-null); with no prior record
an UnknownDeleted record is stored carrying only the message id, channel id,
optional guild id and deletion timestamp. -/
theorem C4_delete_promotes (a : Archiver) (store : Store) (ch : ChannelId)
    (id : MessageId) (g : Option GuildId) (now : Timestamp)
    (dbF : ArchivedMessageFull) (dbI : ArchivedMessageIncomplete)
    (hig : a.is_event_ignored ch g = false) :
    (find_one store id = some (ArchivedMessage.Full dbF) →
      find_one (a.message_delete store ch id g now) id =
        some (ArchivedMessage.FullDeleted
          { id := dbF.id
            channel_id := dbF.channel_id
            guild_id := dbF.guild_id
            author_id := dbF.author_id
            timestamp := dbF.timestamp
            kind := dbF.kind
            message_reference := dbF.message_reference
            webhook_id := dbF.webhook_id
            application_id := dbF.application_id
            interaction := dbF.interaction
            iterations := dbF.iterations
            marked_as_edited := dbF.marked_as_edited
            deleted_timestamp := some now })) ∧
    (find_one store id = some (ArchivedMessage.Incomplete dbI) →
      find_one (a.message_delete store ch id g now) id =
        some (ArchivedMessage.IncompleteDeleted
          { id := dbI.id
            channel_id := dbI.channel_id
            guild_id := dbI.guild_id
            author_id := dbI.author_id
            timestamp := dbI.timestamp
            iterations := dbI.iterations
            marked_as_edited := dbI.marked_as_edited
            deleted_timestamp := some now })) ∧
    (find_one store id = none →
      find_one (a.message_delete store ch id g now) id =
        some (ArchivedMessage.UnknownDeleted
          { id := id
            channel_id := ch
            guild_id := g
            deleted_timestamp := some now })) := by
  refine ⟨?_, ?_, ?_⟩
  · intro hfind
    have hid : dbF.id = id := by
      have := find_one_eq_some_recordId hfind
      simpa [ArchivedMessage.recordId] using this
    simp only [Archiver.message_delete, hig, Bool.false_eq_true, if_false, hfind]
    exact find_one_update_one_upsert_self store id _
      (by simpa [ArchivedMessage.recordId, ArchivedMessageFull.into_deleted])
  · intro hfind
    have hid : dbI.id = id := by
      have := find_one_eq_some_recordId hfind
      simpa [ArchivedMessage.recordId] using this
    simp only [Archiver.message_delete, hig, Bool.false_eq_true, if_false, hfind]
    exact find_one_update_one_upsert_self store id _
      (by simpa [ArchivedMessage.recordId, ArchivedMessageIncomplete.into_deleted])
  · intro hfind
    simp only [Archiver.message_delete, hig, Bool.false_eq_true, if_false, hfind]
    exact find_one_update_one_upsert_self store id _ (by simp [ArchivedMessage.recordId])

/-- Witness for C4: deleting the stored archive of `msg1` at time 8000 yields
the FullDeleted record with all fields carried over and the deletion
timestamp set. -/
theorem C4_delete_promotes_witness :
    find_one (arch0.message_delete [ArchivedMessage.Full full1] 10 1 (some 20) 8000) 1 =
      some (ArchivedMessage.FullDeleted
        { id := full1.id
          channel_id := full1.channel_id
          guild_id := full1.guild_id
          author_id := full1.author_id
          timestamp := full1.timestamp
          kind := full1.kind
          message_reference := full1.message_reference
          webhook_id := full1.webhook_id
          application_id := full1.application_id
          interaction := full1.interaction
          iterations := full1.iterations
          marked_as_edited := full1.marked_as_edited
          deleted_timestamp := some 8000 }) :=
  (C4_delete_promotes arch0 [ArchivedMessage.Full full1] 10 1 (some 20) 8000 full1 inc1
    rfl).1 rfl

/-- C5: for every Edit or Delete event whose message id resolves to a record
already in a deleted variant (FullDeleted, IncompleteDeleted or
UnknownDeleted), the merge is skipped and the whole store — in particular
that record — is left entirely unchanged. -/
theorem C5_deleted_record_skip (a : Archiver) (store : Store)
    (u : MessageUpdateEvent) (ch : ChannelId) (id : MessageId)
    (g : Option GuildId) (nowU nowD : Timestamp) (rE rD : ArchivedMessage)
    (hE : find_one store u.id = some rE) (hdE : rE.isDeletedVariant = true)
    (hD : find_one store id = some rD) (hdD : rD.isDeletedVariant = true) :
    a.message_update store u nowU = store ∧
    a.message_delete store ch id g nowD = store := by
  constructor
  · by_cases hig : a.is_event_ignored u.channel_id u.guild_id = true
    · simp [Archiver.message_update, hig]
    · rw [Bool.not_eq_true] at hig
      cases rE with
      | Full m => simp [ArchivedMessage.isDeletedVariant] at hdE
      | Incomplete m => simp [ArchivedMessage.isDeletedVariant] at hdE
      | FullDeleted m => simp [Archiver.message_update, hig, hE]
      | IncompleteDeleted m => simp [Archiver.message_update, hig, hE]
      | UnknownDeleted m => simp [Archiver.message_update, hig, hE]
  · by_cases hig : a.is_event_ignored ch g = true
    · simp [Archiver.message_delete, hig]
    · rw [Bool.not_eq_true] at hig
      cases rD with
      | Full m => simp [ArchivedMessage.isDeletedVariant] at hdD
      | Incomplete m => simp [ArchivedMessage.isDeletedVariant] at hdD
      | FullDeleted m => simp [Archiver.message_delete, hig, hD]
      | IncompleteDeleted m => simp [Archiver.message_delete, hig, hD]
      | UnknownDeleted m => simp [Archiver.message_delete, hig, hD]

/-- The store after deleting the archive of `msg1` at time 8000: one
FullDeleted record. -/
def storeDeleted1 : Store :=
  arch0.message_delete [ArchivedMessage.Full full1] 10 1 (some 20) 8000

/-- Witness for C5: after deleting message 1, a further edit and a second
delete of the same message both leave the store unchanged — in particular the
second delete does not mutate the FullDeleted record's content fields. -/
theorem C5_deleted_record_skip_witness :
    arch0.message_update storeDeleted1 upd2 9000 = storeDeleted1 ∧
    arch0.message_delete storeDeleted1 10 1 (some 20) 9500 = storeDeleted1 :=
  C5_deleted_record_skip arch0 storeDeleted1 upd2 10 1 (some 20) 9000 9500
    (ArchivedMessage.FullDeleted (full1.into_deleted (some 8000)))
    (ArchivedMessage.FullDeleted (full1.into_deleted (some 8000)))
    (by rfl) rfl (by rfl) rfl

/-- C7 counterexample: a Full record whose `marked_as_edited` is already
`true` is reset to `false` by a later edit event that carries no edited
timestamp (`upd1`): the merge overwrites the flag with the edit's own flag
instead of keeping it monotone. -/
theorem C7_counterexample :
    (find_one [ArchivedMessage.Full { full1 with marked_as_edited := true }] 1).bind
      ArchivedMessage.markedAsEditedFlag = some true ∧
    (find_one
        (arch0.message_update
          [ArchivedMessage.Full { full1 with marked_as_edited := true }] upd1 9000)
        1).bind ArchivedMessage.markedAsEditedFlag = some false :=
  ⟨rfl, rfl⟩

/-- C7 (amended): after an Edit merge on an existing Full or Incomplete
record, `marked_as_edited` equals that edit's own edited flag (whether the
payload carries an edited timestamp) — it is overwritten, not accumulated, so
it can return to `false`; Delete promotion preserves the flag unchanged. -/
theorem C7_flag_tracks_latest_edit (a : Archiver) (store : Store)
    (u : MessageUpdateEvent) (now : Timestamp) (dbF : ArchivedMessageFull)
    (dbI : ArchivedMessageIncomplete) (t : Option Timestamp)
    (hig : a.is_event_ignored u.channel_id u.guild_id = false) :
    (find_one store u.id = some (ArchivedMessage.Full dbF) →
      (find_one (a.message_update store u now) u.id).bind
        ArchivedMessage.markedAsEditedFlag = some u.edited_timestamp.isSome) ∧
    (find_one store u.id = some (ArchivedMessage.Incomplete dbI) →
      (find_one (a.message_update store u now) u.id).bind
        ArchivedMessage.markedAsEditedFlag = some u.edited_timestamp.isSome) ∧
    (dbF.into_deleted t).marked_as_edited = dbF.marked_as_edited ∧
    (dbI.into_deleted t).marked_as_edited = dbI.marked_as_edited := by
  refine ⟨?_, ?_, rfl, rfl⟩
  · intro hfind
    have hid : dbF.id = u.id := by
      have := find_one_eq_some_recordId hfind
      simpa [ArchivedMessage.recordId] using this
    simp only [Archiver.message_update, hig, Bool.false_eq_true, if_false, hfind]
    rw [find_one_update_one_upsert_self store u.id _
      (by simpa [ArchivedMessage.recordId])]
    rfl
  · intro hfind
    have hid : dbI.id = u.id := by
      have := find_one_eq_some_recordId hfind
      simpa [ArchivedMessage.recordId] using this
    simp only [Archiver.message_update, hig, Bool.false_eq_true, if_false, hfind]
    rw [find_one_update_one_upsert_self store u.id _
      (by simpa [ArchivedMessage.recordId])]
    rfl

/-- Witness for C7: the amended flag law instantiated on a marked-as-edited
Full record and the no-edited-timestamp event `upd1`. -/
theorem C7_flag_tracks_latest_edit_witness :
    (find_one
        (arch0.message_update
          [ArchivedMessage.Full { full1 with marked_as_edited := true }] upd1 9000)
        upd1.id).bind ArchivedMessage.markedAsEditedFlag =
      some upd1.edited_timestamp.isSome :=
  (C7_flag_tracks_latest_edit arch0
    [ArchivedMessage.Full { full1 with marked_as_edited := true }] upd1 9000
    { full1 with marked_as_edited := true } inc1 (some 8000) rfl).1 rfl

/-- C9: `convert_ts` cannot hit its `expect`: for every nanosecond timestamp
in the representable range of a serenity `Timestamp` (years -9999..=9999 of
the time crate), the millisecond value fits `chrono::NaiveDateTime`, so
`from_timestamp_millis` returns `Some` and the checked conversion equals the
total one.  All other per-event failure paths of the handlers are modelled as
returning the store unchanged, never diverging. -/
theorem C9_convert_ts_never_fails (ts : Int)
    (h1 : timeMinNanos ≤ ts) (h2 : ts ≤ timeMaxNanos) :
    convert_ts_checked ts = some (convert_ts ts) := by
  have h1b : (-377705203200000000000 : Int) ≤ ts := h1
  have h2b : ts ≤ (253402300799999999999 : Int) := h2
  have habs : ts.natAbs ≤ 377705203200000000000 := by omega
  have hq : (Int.tdiv ts 1000000).natAbs ≤ 377705203200000 := by
    rw [Int.natAbs_tdiv]
    have h3 : ts.natAbs / 1000000 ≤ 377705203200000000000 / 1000000 :=
      Nat.div_le_div_right habs
    have h4 : (Int.natAbs 1000000) = 1000000 := rfl
    rw [h4]
    show ts.natAbs / 1000000 ≤ 377705203200000
    omega
  have hcast : i64_cast (Int.tdiv ts 1000000) = Int.tdiv ts 1000000 := by
    unfold i64_cast
    omega
  have hcond : chronoMinMillis ≤ Int.tdiv ts 1000000 ∧
      Int.tdiv ts 1000000 ≤ chronoMaxMillis := by
    unfold chronoMinMillis chronoMaxMillis
    omega
  unfold convert_ts_checked convert_ts from_timestamp_millis convert_ts_millis
  rw [hcast, if_pos hcond]

/-- Witness for C9: the conversion law instantiated at the 5000 ms serenity
timestamp of the fixtures. -/
theorem C9_convert_ts_never_fails_witness :
    convert_ts_checked 5000000000 = some (convert_ts 5000000000) :=
  C9_convert_ts_never_fails 5000000000 (by decide) (by decide)

/-- Iterations of every record in a reachable store carry
`may_contain_gap = false`: the invariant is preserved by all three mutating
handlers, whose new iterations are all built with the flag hard-wired to
`false`. -/
theorem reachable_gapFree {a : Archiver} {s : Store} (h : Reachable a s) :
    GapFree s := by
  induction h with
  | empty =>
    intro r hr it hit
    simp at hr
  | create s msg hs ih =>
    intro r hr it hit
    unfold Archiver.message at hr
    by_cases hig : a.is_event_ignored msg.channel_id msg.guild_id = true
    · rw [if_pos hig] at hr
      exact ih r hr it hit
    · rw [Bool.not_eq_true] at hig
      rw [hig] at hr
      simp only [Bool.false_eq_true, if_false, insert_one, List.mem_append] at hr
      rcases hr with hr | hr
      · exact ih r hr it hit
      · simp only [List.mem_singleton] at hr
        subst hr
        simp only [ArchivedMessage.iterationsList, ArchivedMessageFull.from_gateway,
          List.mem_singleton] at hit
        subst hit
        rfl
  | update s u now hs ih =>
    intro r hr it hit
    unfold Archiver.message_update at hr
    by_cases hig : a.is_event_ignored u.channel_id u.guild_id = true
    · rw [if_pos hig] at hr
      exact ih r hr it hit
    · rw [Bool.not_eq_true] at hig
      rw [hig] at hr
      simp only [Bool.false_eq_true, if_false] at hr
      cases hfind : find_one s u.id with
      | none =>
        rw [hfind] at hr
        cases htr : ArchivedMessageIncomplete.from_gateway u (observed_timestamp u now)
            a.session_id with
        | ok m =>
          rw [htr] at hr
          rcases mem_update_one_upsert hr with hr2 | hr2
          · exact ih r hr2 it hit
          · subst hr2
            unfold ArchivedMessageIncomplete.from_gateway at htr
            cases ha : u.author with
            | none =>
              rw [ha] at htr
              exact absurd htr (by simp)
            | some author =>
              rw [ha] at htr
              cases ht : u.timestamp with
              | none =>
                rw [ht] at htr
                exact absurd htr (by simp)
              | some ts2 =>
                rw [ht] at htr
                injection htr with hm
                rw [← hm] at hit
                simp only [ArchivedMessage.iterationsList, List.mem_singleton] at hit
                subst hit
                rfl
        | error e =>
          rw [htr] at hr
          exact ih r hr it hit
      | some rec =>
        rw [hfind] at hr
        cases rec with
        | Full db =>
          rcases mem_update_one_upsert hr with hr2 | hr2
          · exact ih r hr2 it hit
          · subst hr2
            simp only [ArchivedMessage.iterationsList, List.mem_append,
              List.mem_singleton] at hit
            rcases hit with hit | hit
            · exact ih (ArchivedMessage.Full db) (find_one_mem hfind) it hit
            · subst hit
              rfl
        | Incomplete db =>
          rcases mem_update_one_upsert hr with hr2 | hr2
          · exact ih r hr2 it hit
          · subst hr2
            simp only [ArchivedMessage.iterationsList, List.mem_append,
              List.mem_singleton] at hit
            rcases hit with hit | hit
            · exact ih (ArchivedMessage.Incomplete db) (find_one_mem hfind) it hit
            · subst hit
              rfl
        | FullDeleted db => exact ih r hr it hit
        | IncompleteDeleted db => exact ih r hr it hit
        | UnknownDeleted db => exact ih r hr it hit
  | delete s ch id g now hs ih =>
    intro r hr it hit
    unfold Archiver.message_delete at hr
    by_cases hig : a.is_event_ignored ch g = true
    · rw [if_pos hig] at hr
      exact ih r hr it hit
    · rw [Bool.not_eq_true] at hig
      rw [hig] at hr
      simp only [Bool.false_eq_true, if_false] at hr
      cases hfind : find_one s id with
      | none =>
        rw [hfind] at hr
        rcases mem_update_one_upsert hr with hr2 | hr2
        · exact ih r hr2 it hit
        · subst hr2
          simp [ArchivedMessage.iterationsList] at hit
      | some rec =>
        rw [hfind] at hr
        cases rec with
        | Full db =>
          rcases mem_update_one_upsert hr with hr2 | hr2
          · exact ih r hr2 it hit
          · subst hr2
            exact ih (ArchivedMessage.Full db) (find_one_mem hfind) it hit
        | Incomplete db =>
          rcases mem_update_one_upsert hr with hr2 | hr2
          · exact ih r hr2 it hit
          · subst hr2
            exact ih (ArchivedMessage.Incomplete db) (find_one_mem hfind) it hit
        | FullDeleted db => exact ih r hr it hit
        | IncompleteDeleted db => exact ih r hr it hit
        | UnknownDeleted db => exact ih r hr it hit
  | bulk s ch ids g hs ih =>
    intro r hr it hit
    exact ih r hr it hit

/-- C10: every iteration any code path constructs — the founding iteration of
a Full record, the founding iteration of an Incomplete record (built by the
same iteration translator) and every appended edit iteration — has
`may_contain_gap = false`; consequently no record in any reachable store
contains a gap-flagged iteration. -/
theorem C10_no_gap_flag (u : MessageUpdateEvent) (ts : Timestamp) (sid : Uuid)
    (msg : Message) (a : Archiver) (s : Store) (r : ArchivedMessage)
    (it : ArchivedMessageIteration) (hs : Reachable a s) (hr : r ∈ s)
    (hit : it ∈ r.iterationsList) :
    (ArchivedMessageIteration.from_gateway u ts sid).may_contain_gap = false ∧
    ((ArchivedMessageFull.from_gateway msg sid).iterations.all
      (fun i => i.may_contain_gap == false)) = true ∧
    it.may_contain_gap = false :=
  ⟨rfl, rfl, reachable_gapFree hs r hr it hit⟩

/-- Witness for C10: instantiated on the reachable store obtained by creating
`msg1` and then editing it with `upd2`, at its appended iteration. -/
theorem C10_no_gap_flag_witness :
    (ArchivedMessageIteration.from_gateway upd1 5000 7).may_contain_gap = false ∧
    ((ArchivedMessageFull.from_gateway msg1 7).iterations.all
      (fun i => i.may_contain_gap == false)) = true ∧
    (ArchivedMessageIteration.from_gateway upd2 (observed_timestamp upd2 9000)
      7).may_contain_gap = false :=
  C10_no_gap_flag upd1 5000 7 msg1 arch0
    (arch0.message_update (arch0.message [] msg1) upd2 9000)
    (ArchivedMessage.Full
      { full1 with
          iterations := full1.iterations ++
            [ArchivedMessageIteration.from_gateway upd2 (observed_timestamp upd2 9000) 7]
          marked_as_edited := true })
    (ArchivedMessageIteration.from_gateway upd2 (observed_timestamp upd2 9000) 7)
    (Reachable.update (arch0.message [] msg1) upd2 9000
      (Reachable.create [] msg1 Reachable.empty))
    (by decide) (by decide)

/-- The id of a successfully translated Incomplete record is the update
event's message id. -/
theorem incomplete_from_gateway_ok_id {u : MessageUpdateEvent} {ts : Timestamp}
    {sid : Uuid} {m : ArchivedMessageIncomplete}
    (h : ArchivedMessageIncomplete.from_gateway u ts sid = Except.ok m) :
    m.id = u.id := by
  unfold ArchivedMessageIncomplete.from_gateway at h
  cases ha : u.author with
  | none =>
    rw [ha] at h
    exact absurd h (by simp)
  | some author =>
    rw [ha] at h
    cases ht : u.timestamp with
    | none =>
      rw [ht] at h
      exact absurd h (by simp)
    | some ts2 =>
      rw [ht] at h
      injection h with h2
      rw [← h2]

/-- The edit handler either leaves the store unchanged or upserts, under the
event's id, a single document whose variant is an allowed successor of the
current per-id state. -/
theorem message_update_shape (a : Archiver) (store : Store)
    (u : MessageUpdateEvent) (now : Timestamp) :
    a.message_update store u now = store ∨
    ∃ doc : ArchivedMessage, doc.recordId = u.id ∧
      a.message_update store u now = update_one_upsert store u.id doc ∧
      variantStepOk ((find_one store u.id).map ArchivedMessage.variant)
        (some doc.variant) = true := by
  by_cases hig : a.is_event_ignored u.channel_id u.guild_id = true
  · left
    simp [Archiver.message_update, hig]
  · rw [Bool.not_eq_true] at hig
    cases hfind : find_one store u.id with
    | none =>
      cases htr : ArchivedMessageIncomplete.from_gateway u (observed_timestamp u now)
          a.session_id with
      | ok m =>
        right
        refine ⟨ArchivedMessage.Incomplete m, ?_, ?_, ?_⟩
        · simpa [ArchivedMessage.recordId] using incomplete_from_gateway_ok_id htr
        · simp [Archiver.message_update, hig, hfind, htr]
        · rfl
      | error e =>
        left
        simp [Archiver.message_update, hig, hfind, htr]
    | some rec =>
      cases rec with
      | Full db =>
        right
        have hid : db.id = u.id := by
          have := find_one_eq_some_recordId hfind
          simpa [ArchivedMessage.recordId] using this
        refine ⟨ArchivedMessage.Full
          { db with
              iterations := db.iterations ++
                [ArchivedMessageIteration.from_gateway u (observed_timestamp u now)
                  a.session_id]
              marked_as_edited := u.edited_timestamp.isSome }, ?_, ?_, ?_⟩
        · simpa [ArchivedMessage.recordId]
        · simp [Archiver.message_update, hig, hfind]
        · rfl
      | Incomplete db =>
        right
        have hid : db.id = u.id := by
          have := find_one_eq_some_recordId hfind
          simpa [ArchivedMessage.recordId] using this
        refine ⟨ArchivedMessage.Incomplete
          { db with
              iterations := db.iterations ++
                [ArchivedMessageIteration.from_gateway u (observed_timestamp u now)
                  a.session_id]
              marked_as_edited := u.edited_timestamp.isSome }, ?_, ?_, ?_⟩
        · simpa [ArchivedMessage.recordId]
        · simp [Archiver.message_update, hig, hfind]
        · rfl
      | FullDeleted db =>
        left
        simp [Archiver.message_update, hig, hfind]
      | IncompleteDeleted db =>
        left
        simp [Archiver.message_update, hig, hfind]
      | UnknownDeleted db =>
        left
        simp [Archiver.message_update, hig, hfind]

/-- The delete handler either leaves the store unchanged or upserts, under the
event's id, a single document whose variant is an allowed successor of the
current per-id state. -/
theorem message_delete_shape (a : Archiver) (store : Store) (ch : ChannelId)
    (id : MessageId) (g : Option GuildId) (now : Timestamp) :
    a.message_delete store ch id g now = store ∨
    ∃ doc : ArchivedMessage, doc.recordId = id ∧
      a.message_delete store ch id g now = update_one_upsert store id doc ∧
      variantStepOk ((find_one store id).map ArchivedMessage.variant)
        (some doc.variant) = true := by
  by_cases hig : a.is_event_ignored ch g = true
  · left
    simp [Archiver.message_delete, hig]
  · rw [Bool.not_eq_true] at hig
    cases hfind : find_one store id with
    | none =>
      right
      refine ⟨ArchivedMessage.UnknownDeleted
        { id := id
          channel_id := ch
          guild_id := g
          deleted_timestamp := some now }, rfl, ?_, ?_⟩
      · simp [Archiver.message_delete, hig, hfind]
      · rfl
    | some rec =>
      cases rec with
      | Full db =>
        right
        have hid : db.id = id := by
          have := find_one_eq_some_recordId hfind
          simpa [ArchivedMessage.recordId] using this
        refine ⟨ArchivedMessage.FullDeleted (db.into_deleted (some now)), ?_, ?_, ?_⟩
        · simpa [ArchivedMessage.recordId, ArchivedMessageFull.into_deleted]
        · simp [Archiver.message_delete, hig, hfind]
        · rfl
      | Incomplete db =>
        right
        have hid : db.id = id := by
          have := find_one_eq_some_recordId hfind
          simpa [ArchivedMessage.recordId] using this
        refine ⟨ArchivedMessage.IncompleteDeleted (db.into_deleted (some now)), ?_, ?_, ?_⟩
        · simpa [ArchivedMessage.recordId, ArchivedMessageIncomplete.into_deleted]
        · simp [Archiver.message_delete, hig, hfind]
        · rfl
      | FullDeleted db =>
        left
        simp [Archiver.message_delete, hig, hfind]
      | IncompleteDeleted db =>
        left
        simp [Archiver.message_delete, hig, hfind]
      | UnknownDeleted db =>
        left
        simp [Archiver.message_delete, hig, hfind]

/-- C8 counterexample: the create handler performs no lookup and inserts
unconditionally (there is no unique index on the `id` field), so replaying
the create event for message 1 yields a reachable store holding two records
for that one id — "at most one record per message id" fails. -/
theorem C8_counterexample :
    countId (arch0.message (arch0.message [] msg1) msg1) 1 = 2 ∧
    Reachable arch0 (arch0.message (arch0.message [] msg1) msg1) :=
  ⟨rfl, Reachable.create (arch0.message [] msg1) msg1
    (Reachable.create [] msg1 Reachable.empty)⟩

/-- C8 (amended): the Edit and Delete merge steps respect the lifecycle: for
every id, the per-id lookup state moves only along allowed transitions (stay,
absent to Incomplete or UnknownDeleted, Full to FullDeleted, Incomplete to
IncompleteDeleted — never backward, never across the Full/Incomplete
families), and neither step changes the number of stored documents for an id
that already has one.  The Create handler, by contrast, inserts
unconditionally and can duplicate an id (see the counterexample). -/
theorem C8_update_delete_lifecycle (a : Archiver) (store : Store)
    (u : MessageUpdateEvent) (ch : ChannelId) (id : MessageId)
    (g : Option GuildId) (nowU nowD : Timestamp) (i : MessageId) :
    variantStepOk ((find_one store i).map ArchivedMessage.variant)
      ((find_one (a.message_update store u nowU) i).map ArchivedMessage.variant) =
      true ∧
    variantStepOk ((find_one store i).map ArchivedMessage.variant)
      ((find_one (a.message_delete store ch id g nowD) i).map ArchivedMessage.variant) =
      true ∧
    ((find_one store i).isSome = true →
      countId (a.message_update store u nowU) i = countId store i) ∧
    ((find_one store i).isSome = true →
      countId (a.message_delete store ch id g nowD) i = countId store i) := by
  have hupdate := message_update_shape a store u nowU
  have hdelete := message_delete_shape a store ch id g nowD
  refine ⟨?_, ?_, ?_, ?_⟩
  · rcases hupdate with heq | ⟨doc, hdoc, heq, hvar⟩
    · rw [heq]
      exact variantStepOk_refl _
    · rw [heq]
      by_cases hi : i = u.id
      · subst hi
        rw [find_one_update_one_upsert_self store u.id doc hdoc]
        exact hvar
      · rw [find_one_update_one_upsert_ne store u.id doc i hdoc hi]
        exact variantStepOk_refl _
  · rcases hdelete with heq | ⟨doc, hdoc, heq, hvar⟩
    · rw [heq]
      exact variantStepOk_refl _
    · rw [heq]
      by_cases hi : i = id
      · subst hi
        rw [find_one_update_one_upsert_self store i doc hdoc]
        exact hvar
      · rw [find_one_update_one_upsert_ne store id doc i hdoc hi]
        exact variantStepOk_refl _
  · intro hsome
    rcases hupdate with heq | ⟨doc, hdoc, heq, hvar⟩
    · rw [heq]
    · rw [heq]
      by_cases hi : i = u.id
      · subst hi
        exact countId_update_one_upsert_of_found store u.id doc hdoc hsome
      · exact countId_update_one_upsert_ne store u.id doc i hdoc hi
  · intro hsome
    rcases hdelete with heq | ⟨doc, hdoc, heq, hvar⟩
    · rw [heq]
    · rw [heq]
      by_cases hi : i = id
      · subst hi
        exact countId_update_one_upsert_of_found store i doc hdoc hsome
      · exact countId_update_one_upsert_ne store id doc i hdoc hi

/-- Witness for C8: the amended lifecycle law instantiated on the stored
archive of `msg1`, an edit via `upd2` and a delete of message 1. -/
theorem C8_update_delete_lifecycle_witness :
    variantStepOk
      ((find_one [ArchivedMessage.Full full1] 1).map ArchivedMessage.variant)
      ((find_one (arch0.message_update [ArchivedMessage.Full full1] upd2 9000) 1).map
        ArchivedMessage.variant) = true ∧
    variantStepOk
      ((find_one [ArchivedMessage.Full full1] 1).map ArchivedMessage.variant)
      ((find_one (arch0.message_delete [ArchivedMessage.Full full1] 10 1 (some 20) 9500)
          1).map ArchivedMessage.variant) = true ∧
    ((find_one [ArchivedMessage.Full full1] 1).isSome = true →
      countId (arch0.message_update [ArchivedMessage.Full full1] upd2 9000) 1 =
        countId [ArchivedMessage.Full full1] 1) ∧
    ((find_one [ArchivedMessage.Full full1] 1).isSome = true →
      countId (arch0.message_delete [ArchivedMessage.Full full1] 10 1 (some 20) 9500) 1 =
        countId [ArchivedMessage.Full full1] 1) :=
  C8_update_delete_lifecycle arch0 [ArchivedMessage.Full full1] upd2 10 1 (some 20)
    9000 9500 1

end Iswyd
